import Mathlib

/-!
Verification of the pipedream rule/pipeline evaluation engine.

This file is a shallow embedding of the Go sources:
  condition.go  — operands, the comparator (`compareValues`) and the condition tree,
  context.go    — `PipelineContext` (a reference to a mutable Go map, modelled by
                  an explicit heap of maps),
  pipedream.go  — `DefaultValueGetter.GetValue` / `getValueFromReflectValue`,
  data_source.go — `DataSource.Get`, `ExecutionContext`, `PipelineExecutor`
                   (whose `Execute` is a `TODO` stub returning `(nil, nil)`),
  pipeline.go / nodes/ — the node and pipeline data model,
  value.go      — `ValueBuilder` (`LiteralValue`, `DynamicValue`).

Embedded value domain: the scalar Go kinds handled by the comparator's algorithmic
core (bool, the signed and unsigned integer kinds, the float kinds, string) plus
the nil interface value.  Composite kinds (struct, array, slice, map, pointer,
chan, func, complex) are outside the embedded domain; the corresponding branches
of the Go source (`Comparable()` aggregates, `reflect.DeepEqual`, the
array/map/struct arms of `getValueFromReflectValue`) are therefore unreachable
here and are marked as such.  Machine integers are carried as unbounded `Int` /
`Nat` (the mathematical value returned by `reflect.Value.Int()` / `.Uint()`),
with the casts that can overflow written as explicit `% 2 ^ w`.  Go `float64`
comparison semantics (IEEE-754: `NaN` unordered and not equal to itself, `-0 == +0`)
are modelled by `GoFloat`: a rational number, `±∞`, or `NaN`.
-/

namespace Pipedream

/-- The signed integer kinds of `reflect`: `Int, Int8, Int16, Int32, Int64`. -/
inductive IntKind
  | iInt
  | i8
  | i16
  | i32
  | i64
deriving DecidableEq, Repr

/-- The unsigned integer kinds: `Uint, Uint8, Uint16, Uint32, Uint64, Uintptr`. -/
inductive UintKind
  | uInt
  | u8
  | u16
  | u32
  | u64
  | uPtr
deriving DecidableEq, Repr

/-- The floating-point kinds: `Float32, Float64`. -/
inductive FloatKind
  | f32
  | f64
deriving DecidableEq, Repr

/-- A Go floating-point value, as far as comparison semantics are concerned:
`NaN` (unordered, unequal to everything including itself), `±∞`, or a finite
value carried as a rational.  `-0.0` and `+0.0` compare equal in Go, so a single
rational `0` represents both. -/
inductive GoFloat
  | nan
  | negInf
  | posInf
  | fin (q : ℚ)
deriving DecidableEq, Repr

/-- IEEE equality: `NaN` is not equal to anything, including itself. -/
def GoFloat.feq : GoFloat → GoFloat → Bool
  | .negInf, .negInf => true
  | .posInf, .posInf => true
  | .fin a, .fin b => decide (a = b)
  | _, _ => false

/-- IEEE strict less-than: any comparison involving `NaN` is false. -/
def GoFloat.flt : GoFloat → GoFloat → Bool
  | .negInf, .posInf => true
  | .negInf, .fin _ => true
  | .fin _, .posInf => true
  | .fin a, .fin b => decide (a < b)
  | _, _ => false

/-- IEEE less-or-equal: false whenever `NaN` is involved. -/
def GoFloat.fle (l r : GoFloat) : Bool := l.flt r || l.feq r

/-- Whether this float is the `NaN` value. -/
def GoFloat.isNan : GoFloat → Bool
  | .nan => true
  | _ => false

/-- A dynamically-typed Go value (`any`), restricted to the embedded scalar
domain: the nil interface value, or a scalar of one of the kinds above.
`vInt k n` carries the mathematical value `n` of a variable of signed kind `k`
(what `reflect.Value.Int()` returns); likewise `vUint`. -/
inductive GoValue
  | vNil
  | vBool (b : Bool)
  | vString (s : String)
  | vInt (k : IntKind) (n : Int)
  | vUint (k : UintKind) (n : Nat)
  | vFloat (k : FloatKind) (f : GoFloat)
deriving DecidableEq, Repr

/-- The sentinel error values declared at the top of the Go sources
(`ErrInvalidCondition`, `ErrComparisonFailed`, ...).  `fmt.Errorf("%w", ...)`
wrapping preserves the wrapped sentinel's identity under `errors.Is`, so errors
are modelled by their sentinel alone. -/
inductive GoError
  | invalidCondition
  | comparisonFailed
  | incompatibleTypes
  | operationNotSupported
  | nilCondition
  | nilCustomCompareFunc
  | typeAssertionFailed
  | noContextKeyProvided
  | valueNotFoundInContext
  | dataSourceNotFound
  | paramTypeDoesNotMatch
  | valueNotFound
  | keyTypeInvalid
  | improperValueKind
  | inputIsNil
  | keyIsEmpty
  | fieldIsUnexported
deriving DecidableEq, Repr

/-- `ConditionOperand` from condition.go, with `ConditionOperandInvalid` the
zero-value sentinel. -/
inductive ConditionOperand
  | ConditionOperandInvalid
  | ConditionEqual
  | ConditionNotEqual
  | ConditionGreaterThan
  | ConditionLessThan
  | ConditionGreaterThanOrEqual
  | ConditionLessThanOrEqual
deriving DecidableEq, Repr

/-- `compareOrdered[T cmp.Ordered]` from condition.go, for the instantiations at
`int64`, `uint64` and `string`, whose Go `==`/`<` agree with the linear order. -/
def compareOrdered {α : Type} [LinearOrder α] (l r : α) (op : ConditionOperand) :
    Except GoError Bool :=
  match op with
  | .ConditionEqual => .ok (decide (l = r))
  | .ConditionNotEqual => .ok (decide (l ≠ r))
  | .ConditionGreaterThan => .ok (decide (r < l))
  | .ConditionLessThan => .ok (decide (l < r))
  | .ConditionGreaterThanOrEqual => .ok (decide (r ≤ l))
  | .ConditionLessThanOrEqual => .ok (decide (l ≤ r))
  | .ConditionOperandInvalid => .error .invalidCondition

/-- `compareOrdered` instantiated at `float64`: the same operand dispatch, but
with Go's IEEE float `==`/`<`/`<=` (not a linear order because of `NaN`). -/
def compareFloatOrdered (l r : GoFloat) (op : ConditionOperand) : Except GoError Bool :=
  match op with
  | .ConditionEqual => .ok (l.feq r)
  | .ConditionNotEqual => .ok (!(l.feq r))
  | .ConditionGreaterThan => .ok (r.flt l)
  | .ConditionLessThan => .ok (l.flt r)
  | .ConditionGreaterThanOrEqual => .ok (r.fle l)
  | .ConditionLessThanOrEqual => .ok (l.fle r)
  | .ConditionOperandInvalid => .error .invalidCondition

/-- `compareBool` from condition.go: only `==` and `!=` are defined for bools. -/
def compareBool (l r : Bool) (op : ConditionOperand) : Except GoError Bool :=
  match op with
  | .ConditionEqual => .ok (l == r)
  | .ConditionNotEqual => .ok (!(l == r))
  | _ => .error .operationNotSupported

/-- `isSignedInteger` on the value's kind. -/
def GoValue.isSignedInteger : GoValue → Bool
  | .vInt _ _ => true
  | _ => false

/-- `isUnsignedInteger` on the value's kind. -/
def GoValue.isUnsignedInteger : GoValue → Bool
  | .vUint _ _ => true
  | _ => false

/-- `isFloat` on the value's kind. -/
def GoValue.isFloat : GoValue → Bool
  | .vFloat _ _ => true
  | _ => false

/-- `isNumeric` from condition.go. -/
def GoValue.isNumeric (v : GoValue) : Bool :=
  v.isSignedInteger || v.isUnsignedInteger || v.isFloat

/-- The nil test of compareValues step 1 (`lhs == nil`; typed nil pointers are
outside the embedded domain, so only the nil interface value is nil here). -/
def GoValue.isNilValue : GoValue → Bool
  | .vNil => true
  | _ => false

/-- `lhsV.Type() == rhsV.Type()`: two scalar values have the same Go type iff
they are the same kind of scalar with the same width. -/
def GoValue.sameType : GoValue → GoValue → Bool
  | .vBool _, .vBool _ => true
  | .vString _, .vString _ => true
  | .vInt k _, .vInt k' _ => decide (k = k')
  | .vUint k _, .vUint k' _ => decide (k = k')
  | .vFloat k _, .vFloat k' _ => decide (k = k')
  | _, _ => false

/-- `convertToSignedInt64`: the `(int64, bool)` pair returned by the Go helper. -/
def convertToSignedInt64 : GoValue → Int × Bool
  | .vInt _ n => (n, true)
  | _ => (0, false)

/-- `convertToUnsignedUint64`: the `(uint64, bool)` pair. -/
def convertToUnsignedUint64 : GoValue → Nat × Bool
  | .vUint _ n => (n, true)
  | _ => (0, false)

/-- Round `m / 2 ^ k` to the nearest integer, ties to even (the rounding used
by Go's integer-to-float conversions). -/
def roundEvenNat (m : Nat) (k : Nat) : Nat :=
  if k = 0 then m
  else
    let q := m / 2 ^ k
    let r := m % 2 ^ k
    let half := 2 ^ (k - 1)
    if r < half then q
    else if half < r then q + 1
    else if q % 2 = 0 then q else q + 1

/-- The exact rational value of the float of mantissa precision `prec` nearest
to the natural number `m` (round-to-nearest-even).  `prec = 53` is `float64`. -/
def floatOfNatPrec (prec : Nat) (m : Nat) : ℚ :=
  if m < 2 ^ prec then (m : ℚ)
  else
    let e := m.log2 + 1 - prec
    (roundEvenNat m e : ℚ) * 2 ^ e

/-- Integer-to-float conversion; round-to-nearest-even is symmetric about 0. -/
def floatOfIntPrec (prec : Nat) (n : Int) : ℚ :=
  if 0 ≤ n then floatOfNatPrec prec n.toNat else -(floatOfNatPrec prec (-n).toNat)

/-- `float64(n)` for an `int64` value `n` (precision loss beyond `2 ^ 53`,
as noted in the Go source). -/
def float64OfInt (n : Int) : ℚ := floatOfIntPrec 53 n

/-- `float64(m)` for a `uint64` value `m`. -/
def float64OfNat (m : Nat) : ℚ := floatOfNatPrec 53 m

/-- `convertToFloat64`: the `(float64, bool)` pair returned by the Go helper.
A float operand is widened exactly (`float32` values are a subset of `float64`
values); integer operands are rounded to the nearest `float64`. -/
def convertToFloat64 : GoValue → GoFloat × Bool
  | .vInt _ n => (.fin (float64OfInt n), true)
  | .vUint _ n => (.fin (float64OfNat n), true)
  | .vFloat _ f => (f, true)
  | _ => (.fin 0, false)

/-- `compareMixedInt`: signed LHS `s` against unsigned RHS `u`.  A negative `s`
resolves every operand directly, with no cast; a non-negative `s` is cast to
`uint64` (the explicit `% 2 ^ 64` of the machine cast) and compared. -/
def compareMixedInt (s : Int) (u : Nat) (op : ConditionOperand) : Except GoError Bool :=
  if s < 0 then
    match op with
    | .ConditionEqual => .ok false
    | .ConditionNotEqual => .ok true
    | .ConditionGreaterThan => .ok false
    | .ConditionLessThan => .ok true
    | .ConditionGreaterThanOrEqual => .ok false
    | .ConditionLessThanOrEqual => .ok true
    | .ConditionOperandInvalid => .error .invalidCondition
  else
    compareOrdered ((s % (2 ^ 64 : Int)).toNat) u op

/-- `compareMixedIntReversed`: unsigned LHS `u` against signed RHS `s`. -/
def compareMixedIntReversed (u : Nat) (s : Int) (op : ConditionOperand) : Except GoError Bool :=
  if s < 0 then
    match op with
    | .ConditionEqual => .ok false
    | .ConditionNotEqual => .ok true
    | .ConditionGreaterThan => .ok true
    | .ConditionLessThan => .ok false
    | .ConditionGreaterThanOrEqual => .ok true
    | .ConditionLessThanOrEqual => .ok false
    | .ConditionOperandInvalid => .error .invalidCondition
  else
    compareOrdered u ((s % (2 ^ 64 : Int)).toNat) op

/-- `compareValues` from condition.go, on the embedded scalar domain.
Order of cases mirrors the source: (1) nil handling, (2) identical types,
(3) cross-kind numeric coercion (signed/signed, unsigned/unsigned, the two
mixed-sign cases, then the float path), (4) incompatible types.  The
`Comparable()` / `reflect.DeepEqual` branches of case (2) concern composite
kinds outside the embedded domain. -/
def compareValues (lhs rhs : GoValue) (op : ConditionOperand) : Except GoError Bool :=
  if lhs.isNilValue || rhs.isNilValue then
    match op with
    | .ConditionEqual => .ok (lhs.isNilValue == rhs.isNilValue)
    | .ConditionNotEqual => .ok (!(lhs.isNilValue == rhs.isNilValue))
    | _ => .error .operationNotSupported
  else if lhs.sameType rhs then
    match lhs, rhs with
    | .vInt _ a, .vInt _ b => compareOrdered a b op
    | .vUint _ a, .vUint _ b => compareOrdered a b op
    | .vFloat _ a, .vFloat _ b => compareFloatOrdered a b op
    | .vString a, .vString b => compareOrdered a b op
    | .vBool a, .vBool b => compareBool a b op
    | _, _ => .error .comparisonFailed -- unreachable: sameType forces equal constructors
  else if lhs.isNumeric && rhs.isNumeric then
    if lhs.isSignedInteger && rhs.isSignedInteger then
      compareOrdered (convertToSignedInt64 lhs).1 (convertToSignedInt64 rhs).1 op
    else if lhs.isUnsignedInteger && rhs.isUnsignedInteger then
      compareOrdered (convertToUnsignedUint64 lhs).1 (convertToUnsignedUint64 rhs).1 op
    else if lhs.isSignedInteger && rhs.isUnsignedInteger then
      compareMixedInt (convertToSignedInt64 lhs).1 (convertToUnsignedUint64 rhs).1 op
    else if lhs.isUnsignedInteger && rhs.isSignedInteger then
      compareMixedIntReversed (convertToUnsignedUint64 lhs).1 (convertToSignedInt64 rhs).1 op
    else
      match convertToFloat64 lhs, convertToFloat64 rhs with
      | (lf, true), (rf, true) => compareFloatOrdered lf rf op
      | _, _ => .error .comparisonFailed
  else
    .error .incompatibleTypes

/-- Whether this value is a floating-point `NaN`. -/
def GoValue.isNanFloat : GoValue → Bool
  | .vFloat _ f => f.isNan
  | _ => false

/-- The operand pairing of spec §8: `{Equal, NotEqual}`, `{GreaterThan,
LessThanOrEqual}`, `{LessThan, GreaterThanOrEqual}`; the invalid sentinel is
its own partner. -/
def negateOp : ConditionOperand → ConditionOperand
  | .ConditionEqual => .ConditionNotEqual
  | .ConditionNotEqual => .ConditionEqual
  | .ConditionGreaterThan => .ConditionLessThanOrEqual
  | .ConditionLessThanOrEqual => .ConditionGreaterThan
  | .ConditionLessThan => .ConditionGreaterThanOrEqual
  | .ConditionGreaterThanOrEqual => .ConditionLessThan
  | .ConditionOperandInvalid => .ConditionOperandInvalid

section ComparatorLemmas

theorem compareOrdered_invalid {α : Type} [LinearOrder α] (l r : α) :
    compareOrdered l r .ConditionOperandInvalid = .error .invalidCondition := rfl

theorem compareFloatOrdered_invalid (l r : GoFloat) :
    compareFloatOrdered l r .ConditionOperandInvalid = .error .invalidCondition := rfl

theorem compareMixedInt_invalid (s : Int) (u : Nat) :
    compareMixedInt s u .ConditionOperandInvalid = .error .invalidCondition := by
  unfold compareMixedInt
  split <;> rfl

theorem compareMixedIntReversed_invalid (u : Nat) (s : Int) :
    compareMixedIntReversed u s .ConditionOperandInvalid = .error .invalidCondition := by
  unfold compareMixedIntReversed
  split <;> rfl

/-- On every branch, `compareValues` with the invalid operand produces an error
(one of `invalidCondition`, `operationNotSupported`, `incompatibleTypes`);
it never succeeds. -/
theorem compareValues_invalid_isError (lhs rhs : GoValue) :
    ∃ e, compareValues lhs rhs .ConditionOperandInvalid = .error e := by
  unfold compareValues
  split
  · exact ⟨.operationNotSupported, rfl⟩
  split
  · split
    · exact ⟨_, compareOrdered_invalid _ _⟩
    · exact ⟨_, compareOrdered_invalid _ _⟩
    · exact ⟨_, compareFloatOrdered_invalid _ _⟩
    · exact ⟨_, compareOrdered_invalid _ _⟩
    · exact ⟨_, rfl⟩
    · exact ⟨_, rfl⟩
  split
  · split
    · exact ⟨_, compareOrdered_invalid _ _⟩
    split
    · exact ⟨_, compareOrdered_invalid _ _⟩
    split
    · exact ⟨_, compareMixedInt_invalid _ _⟩
    split
    · exact ⟨_, compareMixedIntReversed_invalid _ _⟩
    split
    · exact ⟨_, compareFloatOrdered_invalid _ _⟩
    · exact ⟨_, rfl⟩
  · exact ⟨_, rfl⟩

end ComparatorLemmas

/-- C1: for every signed value `s < 0` (of any signed kind) and every unsigned
value `u` (of any unsigned kind), the mixed-sign comparison resolves directly
with no wraparound through an unsigned cast: `s < u` is true, `s > u` is false,
`s == u` is false, `s != u` is true, and symmetrically with the unsigned value
on the left. -/
theorem c1_mixed_sign_no_wraparound (ik : IntKind) (uk : UintKind) (n : Int) (m : Nat)
    (hneg : n < 0) :
    compareValues (.vInt ik n) (.vUint uk m) .ConditionLessThan = .ok true ∧
    compareValues (.vInt ik n) (.vUint uk m) .ConditionGreaterThan = .ok false ∧
    compareValues (.vInt ik n) (.vUint uk m) .ConditionEqual = .ok false ∧
    compareValues (.vInt ik n) (.vUint uk m) .ConditionNotEqual = .ok true ∧
    compareValues (.vUint uk m) (.vInt ik n) .ConditionGreaterThan = .ok true ∧
    compareValues (.vUint uk m) (.vInt ik n) .ConditionLessThan = .ok false ∧
    compareValues (.vUint uk m) (.vInt ik n) .ConditionEqual = .ok false ∧
    compareValues (.vUint uk m) (.vInt ik n) .ConditionNotEqual = .ok true := by
  simp [compareValues, GoValue.isNilValue, GoValue.sameType, GoValue.isNumeric,
    GoValue.isSignedInteger, GoValue.isUnsignedInteger, GoValue.isFloat,
    compareMixedInt, compareMixedIntReversed, convertToSignedInt64,
    convertToUnsignedUint64, hneg]

/-- C1 witness: `int32(-1)` against `uint64(1)`. -/
theorem c1_mixed_sign_no_wraparound_witness :
    compareValues (.vInt .i32 (-1)) (.vUint .u64 1) .ConditionLessThan = .ok true ∧
    compareValues (.vInt .i32 (-1)) (.vUint .u64 1) .ConditionGreaterThan = .ok false ∧
    compareValues (.vInt .i32 (-1)) (.vUint .u64 1) .ConditionEqual = .ok false ∧
    compareValues (.vInt .i32 (-1)) (.vUint .u64 1) .ConditionNotEqual = .ok true ∧
    compareValues (.vUint .u64 1) (.vInt .i32 (-1)) .ConditionGreaterThan = .ok true ∧
    compareValues (.vUint .u64 1) (.vInt .i32 (-1)) .ConditionLessThan = .ok false ∧
    compareValues (.vUint .u64 1) (.vInt .i32 (-1)) .ConditionEqual = .ok false ∧
    compareValues (.vUint .u64 1) (.vInt .i32 (-1)) .ConditionNotEqual = .ok true :=
  c1_mixed_sign_no_wraparound .i32 .u64 (-1) 1 (by decide)

/-- C3 counterexample: with both operands nil and the invalid operand,
`compareValues` fails with `ErrOperationNotSupported` (nil handling runs
first), not with `ErrInvalidCondition` as the claim requires. -/
theorem c3_counterexample :
    compareValues .vNil .vNil .ConditionOperandInvalid = .error .operationNotSupported ∧
    compareValues .vNil .vNil .ConditionOperandInvalid ≠ .error .invalidCondition := by
  constructor
  · rfl
  · intro h
    simp [compareValues, GoValue.isNilValue] at h

/-- C3 amended: `compareValues` with the invalid operand always fails with an
error for every pair of operands, but the operand is not validated before the
other cases: nil operands fail with `ErrOperationNotSupported`, same-type bool
operands fail with `ErrOperationNotSupported`, incompatible non-numeric pairs
fail with `ErrIncompatibleTypes`, and only the dispatched ordered-comparison
paths fail with `ErrInvalidCondition`. -/
theorem c3_invalid_operand_always_errors (lhs rhs : GoValue) :
    ∃ e, compareValues lhs rhs .ConditionOperandInvalid = .error e :=
  compareValues_invalid_isError lhs rhs

/-- C4 counterexample: `compare(NaN, NaN, Equal)` returns `(false, nil)` —
IEEE equality is not reflexive at `NaN`, so the claim fails for the
floating-point value `NaN`. -/
theorem c4_counterexample :
    compareValues (.vFloat .f64 .nan) (.vFloat .f64 .nan) .ConditionEqual = .ok false ∧
    compareValues (.vFloat .f64 .nan) (.vFloat .f64 .nan) .ConditionEqual ≠ .ok true := by
  constructor
  · rfl
  · intro h
    simp [compareValues, GoValue.isNilValue, GoValue.sameType, compareFloatOrdered,
      GoFloat.feq] at h

/-- C4 amended: `compare(v, v, Equal)` returns `(true, nil)` for every
comparable value `v` of the embedded domain that is not a floating-point
`NaN`. -/
theorem c4_equal_reflexive (v : GoValue) (h : v.isNanFloat = false) :
    compareValues v v .ConditionEqual = .ok true := by
  cases v with
  | vNil => rfl
  | vBool b => simp [compareValues, GoValue.isNilValue, GoValue.sameType, compareBool]
  | vString s => simp [compareValues, GoValue.isNilValue, GoValue.sameType, compareOrdered]
  | vInt k n => simp [compareValues, GoValue.isNilValue, GoValue.sameType, compareOrdered]
  | vUint k n => simp [compareValues, GoValue.isNilValue, GoValue.sameType, compareOrdered]
  | vFloat k f =>
      cases f with
      | nan => simp [GoValue.isNanFloat, GoFloat.isNan] at h
      | negInf =>
          simp [compareValues, GoValue.isNilValue, GoValue.sameType, compareFloatOrdered,
            GoFloat.feq]
      | posInf =>
          simp [compareValues, GoValue.isNilValue, GoValue.sameType, compareFloatOrdered,
            GoFloat.feq]
      | fin q =>
          simp [compareValues, GoValue.isNilValue, GoValue.sameType, compareFloatOrdered,
            GoFloat.feq]

/-- C4 witness: reflexivity at the concrete float `1/2`. -/
theorem c4_equal_reflexive_witness :
    GoValue.isNanFloat (.vFloat .f64 (.fin (1 / 2))) = false ∧
    compareValues (.vFloat .f64 (.fin (1 / 2))) (.vFloat .f64 (.fin (1 / 2)))
      .ConditionEqual = .ok true :=
  ⟨rfl, c4_equal_reflexive (.vFloat .f64 (.fin (1 / 2))) rfl⟩

section NegationDuality

theorem decide_le_eq_not_decide_lt {α : Type} [LinearOrder α] (l r : α) :
    decide (l ≤ r) = !decide (r < l) := by
  rw [← decide_not]
  exact decide_eq_decide.mpr not_lt.symm

/-- `compareOrdered` satisfies the negation duality of spec §8 on every
instantiation whose Go comparison operators agree with a linear order. -/
theorem compareOrdered_negate {α : Type} [LinearOrder α] {l r : α} {op : ConditionOperand}
    {b : Bool} (h : compareOrdered l r op = .ok b) :
    compareOrdered l r (negateOp op) = .ok (!b) := by
  cases op with
  | ConditionOperandInvalid => exact absurd h (by simp [compareOrdered])
  | ConditionEqual =>
      injection h with h
      show Except.ok (decide (l ≠ r)) = Except.ok (!b)
      rw [← h]
      simp [ne_eq]
  | ConditionNotEqual =>
      injection h with h
      show Except.ok (decide (l = r)) = Except.ok (!b)
      rw [← h]
      simp [ne_eq]
  | ConditionGreaterThan =>
      injection h with h
      show Except.ok (decide (l ≤ r)) = Except.ok (!b)
      rw [← h]
      exact congrArg Except.ok (decide_le_eq_not_decide_lt l r)
  | ConditionLessThan =>
      injection h with h
      show Except.ok (decide (r ≤ l)) = Except.ok (!b)
      rw [← h]
      exact congrArg Except.ok (decide_le_eq_not_decide_lt r l)
  | ConditionGreaterThanOrEqual =>
      injection h with h
      show Except.ok (decide (l < r)) = Except.ok (!b)
      rw [← h, decide_le_eq_not_decide_lt r l, Bool.not_not]
  | ConditionLessThanOrEqual =>
      injection h with h
      show Except.ok (decide (r < l)) = Except.ok (!b)
      rw [← h, decide_le_eq_not_decide_lt l r, Bool.not_not]

/-- For non-`NaN` floats, IEEE `<=` is the boolean negation of the flipped
IEEE `<` (this is exactly what fails when a `NaN` is involved). -/
theorem GoFloat.fle_eq_not_flt {l r : GoFloat} (hl : l.isNan = false)
    (hr : r.isNan = false) : l.fle r = !(r.flt l) := by
  cases l <;> cases r <;>
    simp_all [GoFloat.isNan, GoFloat.fle, GoFloat.flt, GoFloat.feq]
  rename_i a b
  rcases lt_trichotomy a b with hab | hab | hab
  · simp [hab, asymm hab]
  · simp [hab]
  · simp [asymm hab, ne_of_gt hab, hab]

/-- Negation duality for the float instantiation of `compareOrdered`, under the
hypothesis that neither operand is `NaN`. -/
theorem compareFloatOrdered_negate {l r : GoFloat} {op : ConditionOperand} {b : Bool}
    (hl : l.isNan = false) (hr : r.isNan = false)
    (h : compareFloatOrdered l r op = .ok b) :
    compareFloatOrdered l r (negateOp op) = .ok (!b) := by
  cases op with
  | ConditionOperandInvalid => exact absurd h (by simp [compareFloatOrdered])
  | ConditionEqual =>
      injection h with h
      show Except.ok (!(l.feq r)) = Except.ok (!b)
      rw [h]
  | ConditionNotEqual =>
      injection h with h
      show Except.ok (l.feq r) = Except.ok (!b)
      rw [← h, Bool.not_not]
  | ConditionGreaterThan =>
      injection h with h
      show Except.ok (l.fle r) = Except.ok (!b)
      rw [GoFloat.fle_eq_not_flt hl hr, h]
  | ConditionLessThan =>
      injection h with h
      show Except.ok (r.fle l) = Except.ok (!b)
      rw [GoFloat.fle_eq_not_flt hr hl, h]
  | ConditionGreaterThanOrEqual =>
      injection h with h
      show Except.ok (l.flt r) = Except.ok (!b)
      rw [← h, GoFloat.fle_eq_not_flt hr hl, Bool.not_not]
  | ConditionLessThanOrEqual =>
      injection h with h
      show Except.ok (r.flt l) = Except.ok (!b)
      rw [← h, GoFloat.fle_eq_not_flt hl hr, Bool.not_not]

/-- Negation duality for `compareBool` (only `Equal`/`NotEqual` succeed). -/
theorem compareBool_negate {l r : Bool} {op : ConditionOperand} {b : Bool}
    (h : compareBool l r op = .ok b) :
    compareBool l r (negateOp op) = .ok (!b) := by
  cases op with
  | ConditionEqual =>
      injection h with h
      show Except.ok (!(l == r)) = Except.ok (!b)
      rw [h]
  | ConditionNotEqual =>
      injection h with h
      show Except.ok (l == r) = Except.ok (!b)
      rw [← h, Bool.not_not]
  | ConditionOperandInvalid => exact absurd h (by simp [compareBool])
  | ConditionGreaterThan => exact absurd h (by simp [compareBool])
  | ConditionLessThan => exact absurd h (by simp [compareBool])
  | ConditionGreaterThanOrEqual => exact absurd h (by simp [compareBool])
  | ConditionLessThanOrEqual => exact absurd h (by simp [compareBool])

/-- Negation duality for the mixed signed/unsigned comparison: both the direct
resolution taken for a negative signed operand and the widened unsigned
comparison are dual. -/
theorem compareMixedInt_negate {s : Int} {u : Nat} {op : ConditionOperand} {b : Bool}
    (h : compareMixedInt s u op = .ok b) :
    compareMixedInt s u (negateOp op) = .ok (!b) := by
  by_cases hs : s < 0
  · unfold compareMixedInt at h ⊢
    rw [if_pos hs] at h ⊢
    cases op <;> simp_all [negateOp]
  · unfold compareMixedInt at h ⊢
    rw [if_neg hs] at h ⊢
    exact compareOrdered_negate h

/-- Negation duality for the reversed mixed comparison. -/
theorem compareMixedIntReversed_negate {u : Nat} {s : Int} {op : ConditionOperand} {b : Bool}
    (h : compareMixedIntReversed u s op = .ok b) :
    compareMixedIntReversed u s (negateOp op) = .ok (!b) := by
  by_cases hs : s < 0
  · unfold compareMixedIntReversed at h ⊢
    rw [if_pos hs] at h ⊢
    cases op <;> simp_all [negateOp]
  · unfold compareMixedIntReversed at h ⊢
    rw [if_neg hs] at h ⊢
    exact compareOrdered_negate h

end NegationDuality

/-- C5 counterexample: with a `NaN` operand on the float coercion path
(`float32 NaN` against `float64 0`), `compare(a, b, GreaterThan)` and
`compare(a, b, LessThanOrEqual)` both succeed with `false`, so the second is
not the negation of the first. -/
theorem c5_counterexample :
    compareValues (.vFloat .f32 .nan) (.vFloat .f64 (.fin 0)) .ConditionGreaterThan
      = .ok false ∧
    compareValues (.vFloat .f32 .nan) (.vFloat .f64 (.fin 0)) .ConditionLessThanOrEqual
      = .ok false ∧
    compareValues (.vFloat .f32 .nan) (.vFloat .f64 (.fin 0)) .ConditionLessThanOrEqual
      ≠ .ok (!false) := by
  refine ⟨rfl, rfl, ?_⟩
  intro hcontra
  simp [compareValues, GoValue.isNilValue, GoValue.sameType, GoValue.isNumeric,
    GoValue.isSignedInteger, GoValue.isUnsignedInteger, GoValue.isFloat,
    convertToFloat64, compareFloatOrdered, GoFloat.fle, GoFloat.flt, GoFloat.feq]
    at hcontra

/-- C5 amended: for every pair of operands of which neither is a floating-point
`NaN`, whenever `compareValues a b op` succeeds with result `r`, the comparison
with the negated operand (`Equal`↔`NotEqual`, `GreaterThan`↔`LessThanOrEqual`,
`LessThan`↔`GreaterThanOrEqual`) succeeds with result `!r`.  With a `NaN`
operand the duality holds for `Equal`/`NotEqual` but fails for the ordering
pairs (see the counterexample). -/
theorem c5_negation_duality (a b : GoValue) (op : ConditionOperand) (r : Bool)
    (ha : a.isNanFloat = false) (hb : b.isNanFloat = false)
    (h : compareValues a b op = .ok r) :
    compareValues a b (negateOp op) = .ok (!r) := by
  cases a with
  | vNil => cases op <;> simp_all [compareValues, GoValue.isNilValue, negateOp]
  | vBool x =>
      cases b with
      | vNil => cases op <;> simp_all [compareValues, GoValue.isNilValue, negateOp]
      | vBool y => exact compareBool_negate h
      | vString s =>
          simp_all [compareValues, GoValue.isNilValue, GoValue.sameType, GoValue.isNumeric,
            GoValue.isSignedInteger, GoValue.isUnsignedInteger, GoValue.isFloat]
      | vInt k n =>
          simp_all [compareValues, GoValue.isNilValue, GoValue.sameType, GoValue.isNumeric,
            GoValue.isSignedInteger, GoValue.isUnsignedInteger, GoValue.isFloat]
      | vUint k n =>
          simp_all [compareValues, GoValue.isNilValue, GoValue.sameType, GoValue.isNumeric,
            GoValue.isSignedInteger, GoValue.isUnsignedInteger, GoValue.isFloat]
      | vFloat k f =>
          simp_all [compareValues, GoValue.isNilValue, GoValue.sameType, GoValue.isNumeric,
            GoValue.isSignedInteger, GoValue.isUnsignedInteger, GoValue.isFloat]
  | vString x =>
      cases b with
      | vNil => cases op <;> simp_all [compareValues, GoValue.isNilValue, negateOp]
      | vString y => exact compareOrdered_negate h
      | vBool y =>
          simp_all [compareValues, GoValue.isNilValue, GoValue.sameType, GoValue.isNumeric,
            GoValue.isSignedInteger, GoValue.isUnsignedInteger, GoValue.isFloat]
      | vInt k n =>
          simp_all [compareValues, GoValue.isNilValue, GoValue.sameType, GoValue.isNumeric,
            GoValue.isSignedInteger, GoValue.isUnsignedInteger, GoValue.isFloat]
      | vUint k n =>
          simp_all [compareValues, GoValue.isNilValue, GoValue.sameType, GoValue.isNumeric,
            GoValue.isSignedInteger, GoValue.isUnsignedInteger, GoValue.isFloat]
      | vFloat k f =>
          simp_all [compareValues, GoValue.isNilValue, GoValue.sameType, GoValue.isNumeric,
            GoValue.isSignedInteger, GoValue.isUnsignedInteger, GoValue.isFloat]
  | vInt k n =>
      cases b with
      | vNil => cases op <;> simp_all [compareValues, GoValue.isNilValue, negateOp]
      | vBool y =>
          simp_all [compareValues, GoValue.isNilValue, GoValue.sameType, GoValue.isNumeric,
            GoValue.isSignedInteger, GoValue.isUnsignedInteger, GoValue.isFloat]
      | vString y =>
          simp_all [compareValues, GoValue.isNilValue, GoValue.sameType, GoValue.isNumeric,
            GoValue.isSignedInteger, GoValue.isUnsignedInteger, GoValue.isFloat]
      | vInt k' n' =>
          by_cases hk : k = k' <;>
            simp only [compareValues, GoValue.isNilValue, GoValue.sameType, GoValue.isNumeric,
              GoValue.isSignedInteger, GoValue.isUnsignedInteger, GoValue.isFloat,
              convertToSignedInt64, hk, decide_True, decide_False, Bool.or_self, Bool.false_or,
              Bool.or_false, Bool.true_or, Bool.or_true, Bool.and_self, Bool.true_and,
              Bool.and_true, Bool.false_and, Bool.and_false, if_true, if_false,
              Bool.false_eq_true, eq_self_iff_true] at h ⊢ <;>
            exact compareOrdered_negate h
      | vUint k' n' => exact compareMixedInt_negate h
      | vFloat k' f =>
          simp only [GoValue.isNanFloat] at hb
          exact compareFloatOrdered_negate rfl hb h
  | vUint k n =>
      cases b with
      | vNil => cases op <;> simp_all [compareValues, GoValue.isNilValue, negateOp]
      | vBool y =>
          simp_all [compareValues, GoValue.isNilValue, GoValue.sameType, GoValue.isNumeric,
            GoValue.isSignedInteger, GoValue.isUnsignedInteger, GoValue.isFloat]
      | vString y =>
          simp_all [compareValues, GoValue.isNilValue, GoValue.sameType, GoValue.isNumeric,
            GoValue.isSignedInteger, GoValue.isUnsignedInteger, GoValue.isFloat]
      | vInt k' n' => exact compareMixedIntReversed_negate h
      | vUint k' n' =>
          by_cases hk : k = k' <;>
            simp only [compareValues, GoValue.isNilValue, GoValue.sameType, GoValue.isNumeric,
              GoValue.isSignedInteger, GoValue.isUnsignedInteger, GoValue.isFloat,
              convertToUnsignedUint64, hk, decide_True, decide_False, Bool.or_self,
              Bool.false_or, Bool.or_false, Bool.true_or, Bool.or_true, Bool.and_self,
              Bool.true_and, Bool.and_true, Bool.false_and, Bool.and_false, if_true, if_false,
              Bool.false_eq_true, eq_self_iff_true] at h ⊢ <;>
            exact compareOrdered_negate h
      | vFloat k' f =>
          simp only [GoValue.isNanFloat] at hb
          exact compareFloatOrdered_negate rfl hb h
  | vFloat k f =>
      simp only [GoValue.isNanFloat] at ha
      cases b with
      | vNil => cases op <;> simp_all [compareValues, GoValue.isNilValue, negateOp]
      | vBool y =>
          simp_all [compareValues, GoValue.isNilValue, GoValue.sameType, GoValue.isNumeric,
            GoValue.isSignedInteger, GoValue.isUnsignedInteger, GoValue.isFloat]
      | vString y =>
          simp_all [compareValues, GoValue.isNilValue, GoValue.sameType, GoValue.isNumeric,
            GoValue.isSignedInteger, GoValue.isUnsignedInteger, GoValue.isFloat]
      | vInt k' n' => exact compareFloatOrdered_negate ha rfl h
      | vUint k' n' => exact compareFloatOrdered_negate ha rfl h
      | vFloat k' f' =>
          simp only [GoValue.isNanFloat] at hb
          by_cases hk : k = k' <;>
            simp only [compareValues, GoValue.isNilValue, GoValue.sameType, GoValue.isNumeric,
              GoValue.isSignedInteger, GoValue.isUnsignedInteger, GoValue.isFloat,
              convertToFloat64, hk, decide_True, decide_False, Bool.or_self, Bool.false_or,
              Bool.or_false, Bool.true_or, Bool.or_true, Bool.and_self, Bool.true_and,
              Bool.and_true, Bool.false_and, Bool.and_false, if_true, if_false,
              Bool.false_eq_true, eq_self_iff_true] at h ⊢ <;>
            exact compareFloatOrdered_negate ha hb h

/-- C5 witness: `int(5)` against `uint8(3)` with `LessThan`; the negated
operand `GreaterThanOrEqual` yields the negated result. -/
theorem c5_negation_duality_witness :
    GoValue.isNanFloat (.vInt .iInt 5) = false ∧
    GoValue.isNanFloat (.vUint .u8 3) = false ∧
    compareValues (.vInt .iInt 5) (.vUint .u8 3) .ConditionLessThan = .ok false ∧
    compareValues (.vInt .iInt 5) (.vUint .u8 3) .ConditionGreaterThanOrEqual = .ok true :=
  ⟨rfl, rfl, rfl,
    c5_negation_duality (.vInt .iInt 5) (.vUint .u8 3) .ConditionLessThan false rfl rfl rfl⟩

/-! ### context.go: `PipelineContext` over an explicit heap of Go maps

A Go `PipelineContext` holds a reference to a mutable `map[string]any`;
`SetValue` mutates the referenced map in place and `Clone` allocates a fresh
map with `maps.Clone`.  The reference semantics are modelled by an explicit
heap: a list of map contents indexed by allocation order.  A map's contents
are an association list with unique keys (`GoMap.set` overwrites in place). -/

/-- The contents of one `map[string]any`. -/
abbrev GoMap := List (String × GoValue)

/-- Go map lookup: `v, ok := m[k]`. -/
def GoMap.get : GoMap → String → Option GoValue
  | [], _ => none
  | (k', v) :: rest, k => if k' = k then some v else GoMap.get rest k

/-- Go map assignment `m[k] = v`: overwrite the existing entry or append. -/
def GoMap.set : GoMap → String → GoValue → GoMap
  | [], k, v => [(k, v)]
  | (k', w) :: rest, k, v =>
      if k' = k then (k', v) :: rest else (k', w) :: GoMap.set rest k v

/-- The heap of allocated Go maps, indexed by allocation order. -/
structure Heap where
  maps : List GoMap

/-- `PipelineContext` from context.go: its `values` field is a reference to a
map in the heap. -/
structure PipelineContext where
  values : Nat

/-- `GetValue` from context.go: read through the reference. -/
def PipelineContext.GetValue (h : Heap) (p : PipelineContext) (k : String) :
    Option GoValue × Bool :=
  match (h.maps.getD p.values []).get k with
  | some v => (some v, true)
  | none => (none, false)

/-- `SetValue` from context.go: mutate the referenced map in place (returning
the previous value, if any, and the updated heap). -/
def PipelineContext.SetValue (h : Heap) (p : PipelineContext) (k : String) (v : GoValue) :
    (Option GoValue × Bool) × Heap :=
  let m := h.maps.getD p.values []
  ((m.get k, (m.get k).isSome), ⟨h.maps.set p.values (m.set k v)⟩)

/-- `Clone` from context.go: `maps.Clone` allocates a fresh map holding a copy
of the contents; the clone references the new allocation. -/
def PipelineContext.Clone (h : Heap) (p : PipelineContext) : PipelineContext × Heap :=
  (⟨h.maps.length⟩, ⟨h.maps ++ [h.maps.getD p.values []]⟩)

/-- C7: mutating a clone never touches the original context.  For every heap,
every valid context reference `p`, every key and value, `GetValue` on `p`
returns the same `(value, found)` pair after `SetValue` is applied to the
clone of `p` as it did before. -/
theorem c7_clone_set_preserves_original (h : Heap) (p : PipelineContext) (k : String)
    (v : GoValue) (hp : p.values < h.maps.length) :
    PipelineContext.GetValue
      (PipelineContext.SetValue (PipelineContext.Clone h p).2 (PipelineContext.Clone h p).1
        k v).2
      p k = PipelineContext.GetValue h p k := by
  unfold PipelineContext.GetValue PipelineContext.SetValue PipelineContext.Clone
  have hne : h.maps.length ≠ p.values := Nat.ne_of_gt hp
  have hset :
      ((h.maps ++ [h.maps.getD p.values []]).set h.maps.length
          (((h.maps ++ [h.maps.getD p.values []]).getD h.maps.length []).set k v)).getD
        p.values []
        = h.maps.getD p.values [] := by
    rw [List.getD_eq_getElem?_getD, List.getElem?_set_ne hne,
      List.getElem?_append_left hp, ← List.getD_eq_getElem?_getD]
  simp only [hset]

/-- C7 witness: a one-map heap holding `{"x" ↦ 1}`; setting `"x" ↦ 2` on the
clone leaves the original's `GetValue "x"` at `(some 1, true)`. -/
theorem c7_clone_set_preserves_original_witness :
    (0 : Nat) < (Heap.mk [[("x", .vInt .iInt 1)]]).maps.length ∧
    PipelineContext.GetValue
      (PipelineContext.SetValue
        (PipelineContext.Clone ⟨[[("x", .vInt .iInt 1)]]⟩ ⟨0⟩).2
        (PipelineContext.Clone ⟨[[("x", .vInt .iInt 1)]]⟩ ⟨0⟩).1
        "x" (.vInt .iInt 2)).2
      ⟨0⟩ "x" = PipelineContext.GetValue ⟨[[("x", .vInt .iInt 1)]]⟩ ⟨0⟩ "x" :=
  ⟨by decide,
    c7_clone_set_preserves_original ⟨[[("x", .vInt .iInt 1)]]⟩ ⟨0⟩ "x" (.vInt .iInt 2)
      (by decide)⟩

/-! ### pipedream.go: value getters -/

/-- `getValueFromReflectValue` from pipedream.go, on the embedded scalar
domain: every scalar kind falls into the primitive arm of the switch and is
returned as-is, the key ignored.  The array/slice, map, struct, pointer and
non-introspectable arms concern composite kinds outside the embedded domain.
The `vNil` arm is unreachable: `GetValue` rejects a nil input before calling
this function. -/
def getValueFromReflectValue (v : GoValue) (key : GoValue) : Except GoError GoValue :=
  match v, key with
  | .vBool _, _ => .ok v
  | .vInt _ _, _ => .ok v
  | .vUint _ _, _ => .ok v
  | .vFloat _ _, _ => .ok v
  | .vString _, _ => .ok v
  | .vNil, _ => .error .improperValueKind

/-- `DefaultValueGetter.GetValue` from pipedream.go: a nil input fails with
`ErrInputIsNil`, then a nil key fails with `ErrKeyIsEmpty`, before the kind
dispatch of `getValueFromReflectValue`. -/
def DefaultValueGetter.GetValue (input : GoValue) (valueKey : GoValue) :
    Except GoError GoValue :=
  if input = .vNil then .error .inputIsNil
  else if valueKey = .vNil then .error .keyIsEmpty
  else getValueFromReflectValue input valueKey

/-- `StaticValueGetter.GetValue`: ignores both arguments, returns the stored
constant. -/
def StaticValueGetter.GetValue (stored : GoValue) (_input _valueKey : GoValue) :
    Except GoError GoValue :=
  .ok stored

/-- The `ValueGetter` interface, closed over its two implementations in the
source: `DefaultValueGetter` and `StaticValueGetter[T]`. -/
inductive ValueGetter
  | defaultGetter
  | staticGetter (v : GoValue)

/-- Interface dispatch for `ValueGetter.GetValue`. -/
def ValueGetter.GetValue : ValueGetter → GoValue → GoValue → Except GoError GoValue
  | .defaultGetter, input, key => DefaultValueGetter.GetValue input key
  | .staticGetter v, input, key => StaticValueGetter.GetValue v input key

/-- Whether a value is of a primitive scalar kind (bool, integer, float,
string) — the kinds of the first arm of `getValueFromReflectValue`. -/
def GoValue.isPrimitiveScalar : GoValue → Bool
  | .vNil => false
  | _ => true

/-- C8 counterexample: with a primitive scalar input (`int(5)`) and a nil key,
`DefaultValueGetter.GetValue` fails with `ErrKeyIsEmpty` — the key is not
ignored when it is nil, so the claim fails for the absent/nil key. -/
theorem c8_counterexample :
    DefaultValueGetter.GetValue (.vInt .iInt 5) .vNil = .error .keyIsEmpty ∧
    DefaultValueGetter.GetValue (.vInt .iInt 5) .vNil ≠ .ok (.vInt .iInt 5) := by
  refine ⟨rfl, ?_⟩
  intro hcontra
  simp [DefaultValueGetter.GetValue] at hcontra

/-- C8 amended: for every input of primitive scalar kind and every non-nil
key, `DefaultValueGetter.GetValue` returns the input unchanged with a nil
error, the key being ignored; a nil key instead fails with `ErrKeyIsEmpty`
before the kind dispatch. -/
theorem c8_primitive_scalar_identity (v key : GoValue) (hv : v.isPrimitiveScalar = true)
    (hk : key ≠ .vNil) :
    DefaultValueGetter.GetValue v key = .ok v := by
  cases v <;>
    simp_all [DefaultValueGetter.GetValue, getValueFromReflectValue,
      GoValue.isPrimitiveScalar]

/-- C8 witness: input `true`, key `"ignored"`. -/
theorem c8_primitive_scalar_identity_witness :
    GoValue.isPrimitiveScalar (.vBool true) = true ∧
    (GoValue.vString "ignored") ≠ .vNil ∧
    DefaultValueGetter.GetValue (.vBool true) (.vString "ignored") = .ok (.vBool true) :=
  ⟨rfl, by decide,
    c8_primitive_scalar_identity (.vBool true) (.vString "ignored") rfl (by decide)⟩

/-! ### value.go: value builders -/

/-- The `ValueBuilder` interface, closed over the two implementations in the
source: `LiteralValue[T]` and `DynamicValue`.  A `DynamicValue`'s `Getter`
field may be nil (`none`) and its `Key` may be the nil interface value. -/
inductive ValueBuilder
  | literal (v : GoValue)
  | dynamic (contextKey : String) (getter : Option ValueGetter) (key : GoValue)

/-- `LiteralValue.Build` / `DynamicValue.Build` from value.go. -/
def ValueBuilder.Build (h : Heap) (p : PipelineContext) :
    ValueBuilder → Except GoError GoValue
  | .literal v => .ok v
  | .dynamic contextKey getter key =>
      if contextKey = "" then .error .noContextKeyProvided
      else
        match PipelineContext.GetValue h p contextKey with
        | (rawValue, true) =>
            match getter with
            | some g => g.GetValue (rawValue.getD .vNil) key
            | none => .ok (rawValue.getD .vNil)
        | (_, false) => .error .valueNotFoundInContext

/-! ### condition.go: the condition tree

`Condition` is closed over `ValueCondition`, `AndCondition` and `OrCondition`.
A `none` entry in a combinator's children list models a nil `Condition`
interface value in the Go slice.  (`CustomCompareCondition` carries an
arbitrary user-supplied compare function and is not embedded; no claim
concerns it.) -/

inductive Condition
  | value (lhs rhs : Option ValueBuilder) (operand : ConditionOperand)
  | and (conditions : List (Option Condition))
  | or (conditions : List (Option Condition))

mutual

/-- `Evaluate` of `ValueCondition` / `AndCondition` / `OrCondition` from
condition.go.  `ValueCondition`: a nil builder or the invalid operand fails
with `ErrInvalidCondition`; otherwise LHS is built, then RHS, build errors
propagating, then the values are compared. -/
def Condition.Evaluate (h : Heap) (p : PipelineContext) : Condition → Except GoError Bool
  | .value lhs rhs operand =>
      match lhs, rhs with
      | some lb, some rb =>
          if operand = .ConditionOperandInvalid then .error .invalidCondition
          else
            match lb.Build h p with
            | .error e => .error e
            | .ok lhsVal =>
                match rb.Build h p with
                | .error e => .error e
                | .ok rhsVal => compareValues lhsVal rhsVal operand
      | _, _ => .error .invalidCondition
  | .and conditions => evalAndConditions h p conditions
  | .or conditions => evalOrConditions h p conditions

/-- The loop of `AndCondition.Evaluate`: children in listed order; a nil child
is `ErrNilCondition`; the first error or the first false child stops the loop;
an exhausted (or empty) list is true. -/
def evalAndConditions (h : Heap) (p : PipelineContext) :
    List (Option Condition) → Except GoError Bool
  | [] => .ok true
  | none :: _ => .error .nilCondition
  | some cond :: rest =>
      match Condition.Evaluate h p cond with
      | .error e => .error e
      | .ok false => .ok false
      | .ok true => evalAndConditions h p rest

/-- The loop of `OrCondition.Evaluate`: dual to the AND loop; an exhausted
(or empty) list is false. -/
def evalOrConditions (h : Heap) (p : PipelineContext) :
    List (Option Condition) → Except GoError Bool
  | [] => .ok false
  | none :: _ => .error .nilCondition
  | some cond :: rest =>
      match Condition.Evaluate h p cond with
      | .error e => .error e
      | .ok true => .ok true
      | .ok false => evalOrConditions h p rest

end

/-- C6: AND/OR short-circuiting, and error propagation before the
short-circuit point.  The first two conjuncts quantify over an arbitrary
second child `c` — including an error-raising condition or a nil child — so
the result is independent of it: AND with a false first child is
`(false, nil)` and OR with a true first child is `(true, nil)` without the
second child being examined.  The last two conjuncts: an error from the first
child (before any short-circuit point) propagates to the caller. -/
theorem c6_and_or_short_circuit (h : Heap) (p : PipelineContext)
    (cf ct ce : Condition) (c : Option Condition) (e : GoError)
    (hf : Condition.Evaluate h p cf = .ok false)
    (ht : Condition.Evaluate h p ct = .ok true)
    (he : Condition.Evaluate h p ce = .error e) :
    Condition.Evaluate h p (.and [some cf, c]) = .ok false ∧
    Condition.Evaluate h p (.or [some ct, c]) = .ok true ∧
    Condition.Evaluate h p (.and [some ce, c]) = .error e ∧
    Condition.Evaluate h p (.or [some ce, c]) = .error e := by
  refine ⟨?_, ?_, ?_, ?_⟩
  · show evalAndConditions h p [some cf, c] = .ok false
    simp only [evalAndConditions, hf]
  · show evalOrConditions h p [some ct, c] = .ok true
    simp only [evalOrConditions, ht]
  · show evalAndConditions h p [some ce, c] = .error e
    simp only [evalAndConditions, he]
  · show evalOrConditions h p [some ce, c] = .error e
    simp only [evalOrConditions, he]

/-- C6 witness: the false child is `1 == 2` over literals, the true child is
`1 == 1`, the error-raising condition is a `ValueCondition` with nil builders
(`ErrInvalidCondition`), and the second child is itself error-raising. -/
theorem c6_and_or_short_circuit_witness :
    Condition.Evaluate ⟨[]⟩ ⟨0⟩
      (.and [some (.value (some (.literal (.vInt .iInt 1)))
        (some (.literal (.vInt .iInt 2))) .ConditionEqual),
        some (.value none none .ConditionEqual)]) = .ok false ∧
    Condition.Evaluate ⟨[]⟩ ⟨0⟩
      (.or [some (.value (some (.literal (.vInt .iInt 1)))
        (some (.literal (.vInt .iInt 1))) .ConditionEqual),
        some (.value none none .ConditionEqual)]) = .ok true ∧
    Condition.Evaluate ⟨[]⟩ ⟨0⟩
      (.and [some (.value none none .ConditionEqual),
        some (.value none none .ConditionEqual)]) = .error .invalidCondition ∧
    Condition.Evaluate ⟨[]⟩ ⟨0⟩
      (.or [some (.value none none .ConditionEqual),
        some (.value none none .ConditionEqual)]) = .error .invalidCondition :=
  c6_and_or_short_circuit ⟨[]⟩ ⟨0⟩
    (.value (some (.literal (.vInt .iInt 1))) (some (.literal (.vInt .iInt 2)))
      .ConditionEqual)
    (.value (some (.literal (.vInt .iInt 1))) (some (.literal (.vInt .iInt 1)))
      .ConditionEqual)
    (.value none none .ConditionEqual)
    (some (.value none none .ConditionEqual))
    .invalidCondition rfl rfl rfl

/-- C10: a nil child in an AND/OR children list raises `ErrNilCondition` only
when it is reached in list order: after a short-circuiting first child (false
for AND, true for OR) the nil second child is never examined and the result
carries no error; when the first child does not short-circuit, the nil child
is reached and `ErrNilCondition` is returned. -/
theorem c10_nil_child_only_if_reached (h : Heap) (p : PipelineContext)
    (cf ct : Condition)
    (hf : Condition.Evaluate h p cf = .ok false)
    (ht : Condition.Evaluate h p ct = .ok true) :
    Condition.Evaluate h p (.and [some cf, none]) = .ok false ∧
    Condition.Evaluate h p (.or [some ct, none]) = .ok true ∧
    Condition.Evaluate h p (.and [some ct, none]) = .error .nilCondition ∧
    Condition.Evaluate h p (.or [some cf, none]) = .error .nilCondition := by
  refine ⟨?_, ?_, ?_, ?_⟩
  · show evalAndConditions h p [some cf, none] = .ok false
    simp only [evalAndConditions, hf]
  · show evalOrConditions h p [some ct, none] = .ok true
    simp only [evalOrConditions, ht]
  · show evalAndConditions h p [some ct, none] = .error .nilCondition
    simp only [evalAndConditions, ht]
  · show evalOrConditions h p [some cf, none] = .error .nilCondition
    simp only [evalOrConditions, hf]

/-- C10 witness: `1 == 2` (false) and `1 == 1` (true) over literals, each
followed by a nil child. -/
theorem c10_nil_child_only_if_reached_witness :
    Condition.Evaluate ⟨[]⟩ ⟨0⟩
      (.and [some (.value (some (.literal (.vInt .iInt 1)))
        (some (.literal (.vInt .iInt 2))) .ConditionEqual), none]) = .ok false ∧
    Condition.Evaluate ⟨[]⟩ ⟨0⟩
      (.or [some (.value (some (.literal (.vInt .iInt 1)))
        (some (.literal (.vInt .iInt 1))) .ConditionEqual), none]) = .ok true ∧
    Condition.Evaluate ⟨[]⟩ ⟨0⟩
      (.and [some (.value (some (.literal (.vInt .iInt 1)))
        (some (.literal (.vInt .iInt 1))) .ConditionEqual), none])
      = .error .nilCondition ∧
    Condition.Evaluate ⟨[]⟩ ⟨0⟩
      (.or [some (.value (some (.literal (.vInt .iInt 1)))
        (some (.literal (.vInt .iInt 2))) .ConditionEqual), none])
      = .error .nilCondition :=
  c10_nil_child_only_if_reached ⟨[]⟩ ⟨0⟩
    (.value (some (.literal (.vInt .iInt 1))) (some (.literal (.vInt .iInt 2)))
      .ConditionEqual)
    (.value (some (.literal (.vInt .iInt 1))) (some (.literal (.vInt .iInt 1)))
      .ConditionEqual)
    rfl rfl

/-! ### data_source.go: typed data sources invoked through reflection

`DataSource` erases a typed getter `func(ctx, T) (U, error)`; `Get` checks
that the supplied params are convertible to the declared parameter type,
calls the getter reflectively, converts the first result to the declared
response type, and extracts the second result with the unchecked type
assertion `resps[1].Convert(error).Interface().(error)`.  A type assertion on
a nil interface value panics in Go, so `Get`'s result is wrapped in `Option`:
`none` models a panic.  The cancellation context argument carries no data
relevant to the embedding and is dropped from the getter's signature. -/

/-- A Go type descriptor (`reflect.Type`) over the embedded scalar kinds. -/
inductive GoType
  | tBool
  | tString
  | tInt (k : IntKind)
  | tUint (k : UintKind)
  | tFloat (k : FloatKind)
deriving DecidableEq, Repr

/-- Whether the type is one of the numeric kinds. -/
def GoType.isNumericType : GoType → Bool
  | .tInt _ => true
  | .tUint _ => true
  | .tFloat _ => true
  | _ => false

/-- `reflect.Value.CanConvert` restricted to the embedded scalar domain:
numeric kinds are mutually convertible; bool and string only convert to
themselves.  (Go's integer-to-string and string-to-byte-slice conversions
involve kinds outside the embedded domain.) -/
def canConvert (v : GoValue) (t : GoType) : Bool :=
  match v, t with
  | .vBool _, .tBool => true
  | .vString _, .tString => true
  | .vInt _ _, _ => t.isNumericType
  | .vUint _ _, _ => t.isNumericType
  | .vFloat _ _, _ => t.isNumericType
  | _, _ => false

/-- Bit width of a signed kind (64-bit platform: `int` is 64 bits). -/
def IntKind.bits : IntKind → Nat
  | .iInt => 64
  | .i8 => 8
  | .i16 => 16
  | .i32 => 32
  | .i64 => 64

/-- Bit width of an unsigned kind. -/
def UintKind.bits : UintKind → Nat
  | .uInt => 64
  | .u8 => 8
  | .u16 => 16
  | .u32 => 32
  | .u64 => 64
  | .uPtr => 64

/-- Two's-complement wraparound of an integer to a signed width. -/
def wrapSigned (n : Int) (bits : Nat) : Int :=
  (n + 2 ^ (bits - 1)) % 2 ^ bits - 2 ^ (bits - 1)

/-- Wraparound of an integer to an unsigned width. -/
def wrapUnsigned (n : Int) (bits : Nat) : Nat :=
  (n % 2 ^ bits).toNat

/-- Mantissa precision of a float kind. -/
def FloatKind.mantissaBits : FloatKind → Nat
  | .f32 => 24
  | .f64 => 53

/-- Go float-to-integer conversion truncates toward zero; the conversion of
`NaN`/`±∞` is implementation-defined in Go and modelled as 0. -/
def GoFloat.truncToInt : GoFloat → Int
  | .fin q => if 0 ≤ q then Int.floor q else Int.ceil q
  | _ => 0

/-- `reflect.Value.Convert` on the embedded scalar domain.  Integer targets
wrap; float targets round to the target precision.  A float source narrowed
to `float32` keeps its value (the claims never exercise this rounding).
Callers guard with `canConvert`; non-convertible pairs return the value
unchanged. -/
def goConvert (v : GoValue) (t : GoType) : GoValue :=
  match v, t with
  | .vBool b, .tBool => .vBool b
  | .vString s, .tString => .vString s
  | .vInt _ n, .tInt k => .vInt k (wrapSigned n k.bits)
  | .vInt _ n, .tUint k => .vUint k (wrapUnsigned n k.bits)
  | .vInt _ n, .tFloat k => .vFloat k (.fin (floatOfIntPrec k.mantissaBits n))
  | .vUint _ n, .tInt k => .vInt k (wrapSigned n k.bits)
  | .vUint _ n, .tUint k => .vUint k (wrapUnsigned n k.bits)
  | .vUint _ n, .tFloat k => .vFloat k (.fin (floatOfIntPrec k.mantissaBits n))
  | .vFloat _ f, .tInt k => .vInt k (wrapSigned f.truncToInt k.bits)
  | .vFloat _ f, .tUint k => .vUint k (wrapUnsigned f.truncToInt k.bits)
  | .vFloat _ f, .tFloat k => .vFloat k f
  | _, _ => v

/-- `DataSource` from data_source.go: name, erased getter, and the parameter
and response type descriptors captured at construction.  The getter returns
the `(U, error)` pair as a value and an optional error (`none` = nil error). -/
structure DataSource where
  Name : String
  getter : GoValue → GoValue × Option GoError
  paramType : GoType
  responseType : GoType

/-- `NewDataSource`: captures the getter and its type descriptors. -/
def NewDataSource (name : String) (paramType responseType : GoType)
    (getter : GoValue → GoValue × Option GoError) : DataSource :=
  { Name := name, getter := getter, paramType := paramType, responseType := responseType }

/-- `DataSource.Get` from data_source.go.  `none` models a panic: when the
getter's error result is nil, `resps[1].Convert(error).Interface()` is the nil
interface value and the unchecked type assertion `.(error)` panics.  When the
error is non-nil the assertion succeeds and the converted response and the
error are returned. -/
def DataSource.Get (d : DataSource) (params : GoValue) :
    Option (GoValue × Option GoError) :=
  if canConvert params d.paramType then
    let resps := d.getter (goConvert params d.paramType)
    match resps.2 with
    | some e => some (goConvert resps.1 d.responseType, some e)
    | none => none
  else
    some (.vNil, some .paramTypeDoesNotMatch)

/-! ### pipeline.go / data_source.go: pipeline model and the executor -/

/-- The `Node` interface from pipeline.go, closed over `QueryNode`,
`BranchNode` and `ReturnNode`.  A `BranchNode`'s `TruePipeline` /
`FalsePipeline` are `*Pipeline` values, carried here as the optional node
list of the referenced pipeline. -/
inductive Node
  | query (dataSourceName : String) (params : Option ValueBuilder) (saveToName : String)
  | branch (condition : Option Condition) (truePipeline falsePipeline : Option (List Node))
  | ret (valueBuilder : Option ValueBuilder)

/-- `Pipeline` from pipeline.go: an ordered sequence of nodes. -/
structure Pipeline where
  Nodes : List Node

/-- `ExecutionContext` from data_source.go: the data-source registry and the
return-value slot. -/
structure ExecutionContext where
  dataSources : List (String × DataSource)
  returnValue : Option GoValue

/-- Registry lookup for `ExecutionContext.GetDataSource`. -/
def lookupByName : List (String × DataSource) → String → Option DataSource
  | [], _ => none
  | (n, d) :: rest, name => if n = name then some d else lookupByName rest name

/-- `ExecutionContext.GetDataSource`: a miss is `ErrDataSourceNotFound`. -/
def ExecutionContext.GetDataSource (e : ExecutionContext) (name : String) :
    Except GoError DataSource :=
  match lookupByName e.dataSources name with
  | some dataSource => .ok dataSource
  | none => .error .dataSourceNotFound

/-- `PipelineExecutor` from data_source.go. -/
structure PipelineExecutor where
  ectx : ExecutionContext

/-- `NewPipelineExecutor`: empty registry. -/
def NewPipelineExecutor : PipelineExecutor :=
  { ectx := { dataSources := [], returnValue := none } }

/-- `RegisterDataSource`: keyed by name, last registration wins. -/
def PipelineExecutor.RegisterDataSource (p : PipelineExecutor) (source : DataSource) :
    PipelineExecutor :=
  { ectx := { p.ectx with dataSources := (source.Name, source) :: p.ectx.dataSources } }

/-- `PipelineExecutor.Execute` from data_source.go: the body is the literal
`TODO` stub `return nil, nil` — every pipeline, whatever its nodes, produces
no value and no error. -/
def PipelineExecutor.Execute (_p : PipelineExecutor) (_pipeline : Pipeline) :
    Except GoError (Option GoValue) :=
  .ok none

/-- The data source of spec §8 Scenario 6: a getter that succeeds with 42. -/
def scenario6DataSource : DataSource :=
  NewDataSource "ds" (.tInt .iInt) (.tInt .iInt) (fun _ => (.vInt .iInt 42, none))

/-- The pipeline of Scenario 6: `[Query(...) storing under "result",
Return(Dynamic("result"))]`. -/
def scenario6Pipeline : Pipeline :=
  ⟨[.query "ds" (some (.literal (.vInt .iInt 0))) "result",
    .ret (some (.dynamic "result" none .vNil))]⟩

/-- C2 (code bug): on the Scenario-6 pipeline the executor returns
`(nil, nil)` — the `Execute` body is a `TODO` stub, so the value a successful
`Query` would store under `"result"` is never produced, contradicting the
spec and the node documentation in pipeline.go. -/
theorem c2_execute_stub_returns_nil :
    PipelineExecutor.Execute
      (PipelineExecutor.RegisterDataSource NewPipelineExecutor scenario6DataSource)
      scenario6Pipeline = .ok none ∧
    PipelineExecutor.Execute
      (PipelineExecutor.RegisterDataSource NewPipelineExecutor scenario6DataSource)
      scenario6Pipeline ≠ .ok (some (.vInt .iInt 42)) := by
  refine ⟨rfl, ?_⟩
  intro hcontra
  simp [PipelineExecutor.Execute] at hcontra

/-- A data source whose getter succeeds: it returns `(42, nil)`. -/
def succeedingDataSource : DataSource :=
  NewDataSource "answer" (.tInt .iInt) (.tInt .iInt) (fun _ => (.vInt .iInt 42, none))

/-- C9 (code bug): with convertible params and a getter that returns a result
with a nil error, `DataSource.Get` panics (`none`) instead of returning the
result: the reflective extraction of the error result is an unchecked type
assertion on a nil interface value. -/
theorem c9_get_panics_on_success :
    canConvert (.vInt .iInt 7) succeedingDataSource.paramType = true ∧
    (succeedingDataSource.getter
      (goConvert (.vInt .iInt 7) succeedingDataSource.paramType)).2 = none ∧
    DataSource.Get succeedingDataSource (.vInt .iInt 7) = none :=
  ⟨rfl, rfl, rfl⟩

end Pipedream
